import Mathlib

/-!
A shallow embedding of `src/ExcelLibrary.py` (robotframework-excellib).

The library keeps a mutable session: a cache mapping string document
identifiers to openpyxl workbooks, plus an optional current identifier.
Python dicts preserve insertion order, so the cache is modelled as an
association list `List (String × Workbook α)`; `dict.pop` removes one
entry, assignment to an existing key replaces the value in place, and
assignment to a fresh key appends at the end.

Cell values are an arbitrary scalar type `α`; a cell that was never
written holds `Option.none`, matching openpyxl's `cell.value is None`
for untouched cells.  A worksheet is a total map from (row, column)
coordinates (1-based in the source) to `Option α`.  File input/output
(`openpyxl.load_workbook`, `workbook.save`) is external to this
repository; `open_excel_document` therefore takes the workbook the
engine would parse from the named file as an explicit argument, and
`save_excel_document` returns the workbook that would be serialized.

Python exceptions become an `Except ExcelError` result; an operation
that raises leaves the session unchanged (in the source every raise
happens before any mutation of the session).
-/

namespace ExcelLib

/-- A worksheet: a total map from (row, column) to an optional cell value.
Cells that were never written read as `none`. -/
structure Sheet (α : Type) where
  cells : Nat × Nat → Option α

/-- The effect of `sheet.cell(row=r, column=c, value=v)`: write `v` at (r, c). -/
def setCell {α : Type} (sh : Sheet α) (row col : Nat) (v : Option α) : Sheet α :=
  ⟨fun p => if p = (row, col) then v else sh.cells p⟩

/-- A workbook: named sheets in order plus the name of the active sheet. -/
structure Workbook (α : Type) where
  sheets : List (String × Sheet α)
  active : String

/-- The result of `openpyxl.Workbook()`: one empty sheet named "Sheet", active. -/
def Workbook.new {α : Type} : Workbook α :=
  ⟨[("Sheet", ⟨fun _ => none⟩)], "Sheet"⟩

/-- Python `d[k]` / `k in d` on a string-keyed dict modelled as an assoc list. -/
def assocLookup {β : Type} : List (String × β) → String → Option β
  | [], _ => none
  | (k, v) :: rest, key => if k = key then some v else assocLookup rest key

/-- Python `d[k] = v` for a key already present: replace the value in place. -/
def updateAssoc {β : Type} : List (String × β) → String → β → List (String × β)
  | [], _, _ => []
  | (k, v) :: rest, key, newV =>
      if k = key then (k, newV) :: rest else (k, v) :: updateAssoc rest key newV

/-- Python `d.pop(k)`: remove the (unique) entry with key `k`. -/
def eraseAssoc {β : Type} : List (String × β) → String → List (String × β)
  | [], _ => []
  | (k, v) :: rest, key => if k = key then rest else (k, v) :: eraseAssoc rest key

/-- The exceptions raised by the library, with their messages, plus the
Python builtin errors that the code can surface (`KeyError` from dict or
worksheet lookup, `ValueError` from openpyxl for a cell index below 1). -/
inductive ExcelError where
  | suchIdIsExist (msg : String)
  | noSuchId (msg : String)
  | noOpenedDocuments (msg : String)
  | keyError (msg : String)
  | valueError (msg : String)
deriving DecidableEq, Repr

/-- The session state of the `ExcelLibrary` class: `self._cache` and
`self._current_id`. -/
structure ExcelLibrary (α : Type) where
  cache : List (String × Workbook α)
  current_id : Option String

/-- The state built by `__init__`: empty cache, no current document. -/
def initLibrary {α : Type} : ExcelLibrary α := ⟨[], none⟩

/-- Python truthiness of `self._current_id` (an `Optional[str]`):
`None` and the empty string are falsy. -/
def pyTruthy : Option String → Bool
  | none => false
  | some str => str ≠ ""

/-- The error raised by `_get_current_workbook`. -/
def noOpenErr : ExcelError := .noOpenedDocuments ("No opened documents in cache.")

/-- The check at the top of `_get_current_workbook`:
`if not self._cache or not self._current_id: raise NoOpenedDocumentsException`,
returning the current identifier when the check passes.  The final branch is
unreachable (`pyTruthy none = false`) but kept for a total match. -/
def currentIdChecked {α : Type} (s : ExcelLibrary α) : Except ExcelError String :=
  if s.cache.isEmpty || !(pyTruthy s.current_id) then .error noOpenErr
  else
    match s.current_id with
    | some id => .ok id
    | none => .error noOpenErr

/-- `_get_current_workbook`: check, then `self._cache[self._current_id]`. -/
def get_current_workbook {α : Type} (s : ExcelLibrary α) :
    Except ExcelError (Workbook α) :=
  match currentIdChecked s with
  | .error e => .error e
  | .ok id =>
    match assocLookup s.cache id with
    | some wb => .ok wb
    | none => .error (.keyError id)

/-- `create_excel_document(doc_id)` after the `str` coercion: duplicate check,
register a brand-new workbook, make it current, return the current id. -/
def create_excel_document {α : Type} (doc_id : String) (s : ExcelLibrary α) :
    Except ExcelError (String × ExcelLibrary α) :=
  if (assocLookup s.cache doc_id).isSome then
    .error (.suchIdIsExist ("Document with such id " ++ doc_id ++ " is created."))
  else
    .ok (doc_id, ⟨s.cache ++ [(doc_id, Workbook.new)], some doc_id⟩)

/-- `open_excel_document(filename, doc_id)` after the `str` coercions.  The
workbook `wb` stands for `openpyxl.load_workbook(filename)`, whose file
parsing is external to this repository. -/
def open_excel_document {α : Type} (filename : String) (wb : Workbook α)
    (doc_id : String) (s : ExcelLibrary α) :
    Except ExcelError (String × ExcelLibrary α) :=
  let _ := filename
  if (assocLookup s.cache doc_id).isSome then
    .error (.suchIdIsExist ("Document with such id " ++ doc_id ++ " is opened."))
  else
    .ok (doc_id, ⟨s.cache ++ [(doc_id, wb)], some doc_id⟩)

/-- `open_excel_document_from_stream(stream, doc_id)`: same shape, the workbook
`wb` stands for `openpyxl.load_workbook(BytesIO(stream))`. -/
def open_excel_document_from_stream {α : Type} (wb : Workbook α)
    (doc_id : String) (s : ExcelLibrary α) :
    Except ExcelError (String × ExcelLibrary α) :=
  if (assocLookup s.cache doc_id).isSome then
    .error (.suchIdIsExist ("Document with such id " ++ doc_id ++ " is opened."))
  else
    .ok (doc_id, ⟨s.cache ++ [(doc_id, wb)], some doc_id⟩)

/-- `switch_current_excel_document(doc_id)` (no `str` coercion in the source):
membership check, then swap the current id, returning the previous one. -/
def switch_current_excel_document {α : Type} (doc_id : String)
    (s : ExcelLibrary α) : Except ExcelError (Option String × ExcelLibrary α) :=
  if (assocLookup s.cache doc_id).isSome then
    .ok (s.current_id, ⟨s.cache, some doc_id⟩)
  else
    .error (.noSuchId ("Document with such id " ++ doc_id ++ " is not opened yet."))

/-- `close_current_excel_document()`: pop the current document if any
(`dict.pop` raises `KeyError` on a dangling key), then make the first
remaining key current, and return `self._current_id` as it stands after
that reassignment. -/
def close_current_excel_document {α : Type} (s : ExcelLibrary α) :
    Except ExcelError (Option String × ExcelLibrary α) :=
  match s.current_id with
  | some id =>
    if (assocLookup s.cache id).isSome then
      match eraseAssoc s.cache id with
      | [] => .ok (none, ⟨[], none⟩)
      | (k, w) :: rest => .ok (some k, ⟨(k, w) :: rest, some k⟩)
    else .error (.keyError id)
  | none =>
    match s.cache with
    | [] => .ok (none, s)
    | (k, w) :: rest => .ok (some k, ⟨(k, w) :: rest, some k⟩)

/-- `close_all_excel_documents()`: empty the cache and clear the current id. -/
def close_all_excel_documents {α : Type} (_s : ExcelLibrary α) : ExcelLibrary α :=
  ⟨[], none⟩

/-- `save_excel_document(filename)`: resolve the current workbook and hand it
to `workbook.save(filename)`; the disk write is external, so the model
returns the workbook that would be serialized. -/
def save_excel_document {α : Type} (filename : String) (s : ExcelLibrary α) :
    Except ExcelError (Workbook α) :=
  let _ := filename
  get_current_workbook s

/-- `get_list_sheet_names()`: `workbook.sheetnames`. -/
def get_list_sheet_names {α : Type} (s : ExcelLibrary α) :
    Except ExcelError (List String) :=
  match get_current_workbook s with
  | .error e => .error e
  | .ok wb => .ok (wb.sheets.map Prod.fst)

/-- Sheet resolution inside `get_sheet`: `workbook.active` when no name is
given (modelled by the active sheet's name), else `workbook[sheet_name]`,
which raises `KeyError` for an unknown name.  Returns the resolved name
together with the sheet so that writers can store the sheet back. -/
def Workbook.getSheetByName {α : Type} (wb : Workbook α)
    (sheet_name : Option String) : Except ExcelError (String × Sheet α) :=
  match sheet_name with
  | none =>
    match assocLookup wb.sheets wb.active with
    | some sh => .ok (wb.active, sh)
    | none => .error (.keyError wb.active)
  | some n =>
    match assocLookup wb.sheets n with
    | some sh => .ok (n, sh)
    | none => .error (.keyError n)

/-- `get_sheet(sheet_name)`: current workbook, then sheet resolution. -/
def get_sheet {α : Type} (sheet_name : Option String) (s : ExcelLibrary α) :
    Except ExcelError (Sheet α) :=
  match get_current_workbook s with
  | .error e => .error e
  | .ok wb =>
    match wb.getSheetByName sheet_name with
    | .error e => .error e
    | .ok (_, sh) => .ok sh

/-- `read_excel_cell(row_num, col_num, sheet_name)`: `sheet.cell(r, c).value`;
openpyxl raises `ValueError` when the row or column index is below 1. -/
def read_excel_cell {α : Type} (row_num col_num : Nat) (sheet_name : Option String)
    (s : ExcelLibrary α) : Except ExcelError (Option α) :=
  match get_sheet sheet_name s with
  | .error e => .error e
  | .ok sh =>
    if row_num = 0 || col_num = 0 then .error (.valueError ("Row or column values must be at least 1"))
    else .ok (sh.cells (row_num, col_num))

/-- The list built by `read_excel_row`'s iteration: the values of cells
(row_num, col_offset+1) .. (row_num, col_offset+max_num), in order
(`iter_rows(min_row=row_num, max_row=row_num, min_col=1+col_offset,
max_col=col_offset+max_num)` over the single requested row). -/
def readRowCells {α : Type} (sh : Sheet α) (row_num col_offset max_num : Nat) :
    List (Option α) :=
  (List.range max_num).map fun i => sh.cells (row_num, col_offset + 1 + i)

/-- `read_excel_row(row_num, col_offset, max_num, sheet_name)`. -/
def read_excel_row {α : Type} (row_num col_offset max_num : Nat)
    (sheet_name : Option String) (s : ExcelLibrary α) :
    Except ExcelError (List (Option α)) :=
  match get_sheet sheet_name s with
  | .error e => .error e
  | .ok sh => .ok (readRowCells sh row_num col_offset max_num)

/-- The list built by `read_excel_column`'s iteration: the values of cells
(row_offset+1, col_num) .. (row_offset+max_num, col_num), in order. -/
def readColCells {α : Type} (sh : Sheet α) (col_num row_offset max_num : Nat) :
    List (Option α) :=
  (List.range max_num).map fun i => sh.cells (row_offset + 1 + i, col_num)

/-- `read_excel_column(col_num, row_offset, max_num, sheet_name)`. -/
def read_excel_column {α : Type} (col_num row_offset max_num : Nat)
    (sheet_name : Option String) (s : ExcelLibrary α) :
    Except ExcelError (List (Option α)) :=
  match get_sheet sheet_name s with
  | .error e => .error e
  | .ok sh => .ok (readColCells sh col_num row_offset max_num)

/-- `write_excel_cell(row_num, col_num, value, sheet_name)`: resolve the
current workbook and the sheet, then `sheet.cell(row, col, value)`; the
in-place mutation of the aliased sheet is modelled by storing the updated
sheet back into the workbook and the workbook back into the cache. -/
def write_excel_cell {α : Type} (row_num col_num : Nat) (value : Option α)
    (sheet_name : Option String) (s : ExcelLibrary α) :
    Except ExcelError (ExcelLibrary α) :=
  match currentIdChecked s with
  | .error e => .error e
  | .ok id =>
    match assocLookup s.cache id with
    | none => .error (.keyError id)
    | some wb =>
      match wb.getSheetByName sheet_name with
      | .error e => .error e
      | .ok (sname, sh) =>
        if row_num = 0 || col_num = 0 then
          .error (.valueError ("Row or column values must be at least 1"))
        else
          .ok ⟨updateAssoc s.cache id
                 ⟨updateAssoc wb.sheets sname (setCell sh row_num col_num value), wb.active⟩,
               s.current_id⟩

/-- The loop of `write_excel_row`: for each index i,
`sheet.cell(row=row_num, column=i + col_offset + 1, value=row_data[i])`.
Writing the head at column `col_offset + 1` and recursing with the offset
bumped by one reproduces the source's `col_num + col_offset + 1`. -/
def writeRowCells {α : Type} (sh : Sheet α) (row_num col_offset : Nat) :
    List (Option α) → Sheet α
  | [] => sh
  | v :: rest => writeRowCells (setCell sh row_num (col_offset + 1) v) row_num (col_offset + 1) rest

/-- `write_excel_row(row_num, row_data, col_offset, sheet_name)`.  When
`row_num = 0` and the data is non-empty, the first `sheet.cell` call raises
`ValueError` before any cell has been written. -/
def write_excel_row {α : Type} (row_num : Nat) (row_data : List (Option α))
    (col_offset : Nat) (sheet_name : Option String) (s : ExcelLibrary α) :
    Except ExcelError (ExcelLibrary α) :=
  match currentIdChecked s with
  | .error e => .error e
  | .ok id =>
    match assocLookup s.cache id with
    | none => .error (.keyError id)
    | some wb =>
      match wb.getSheetByName sheet_name with
      | .error e => .error e
      | .ok (sname, sh) =>
        if row_num = 0 && !row_data.isEmpty then
          .error (.valueError ("Row or column values must be at least 1"))
        else
          .ok ⟨updateAssoc s.cache id
                 ⟨updateAssoc wb.sheets sname (writeRowCells sh row_num col_offset row_data), wb.active⟩,
               s.current_id⟩

/-- The loop of `write_excel_rows`: `for row_num, row_data in
enumerate(rows_data): self.write_excel_row(row_num + rows_offset + 1,
row_data, col_offset, sheet_name)`, with `i` the enumeration index. -/
def writeRowsLoop {α : Type} (rows_offset col_offset : Nat)
    (sheet_name : Option String) :
    List (List (Option α)) → Nat → ExcelLibrary α →
    Except ExcelError (ExcelLibrary α)
  | [], _, s => .ok s
  | rd :: rest, i, s =>
    match write_excel_row (i + rows_offset + 1) rd col_offset sheet_name s with
    | .error e => .error e
    | .ok s' => writeRowsLoop rows_offset col_offset sheet_name rest (i + 1) s'

/-- `write_excel_rows(rows_data, rows_offset, col_offset, sheet_name)`:
one `write_excel_row` call per inner list; an empty `rows_data` performs
no calls at all. -/
def write_excel_rows {α : Type} (rows_data : List (List (Option α)))
    (rows_offset col_offset : Nat) (sheet_name : Option String)
    (s : ExcelLibrary α) : Except ExcelError (ExcelLibrary α) :=
  writeRowsLoop rows_offset col_offset sheet_name rows_data 0 s

/-- The loop of `write_excel_column`: for each index i,
`sheet.cell(column=col_num, row=i + row_offset + 1, value=col_data[i])`. -/
def writeColCells {α : Type} (sh : Sheet α) (col_num row_offset : Nat) :
    List (Option α) → Sheet α
  | [] => sh
  | v :: rest => writeColCells (setCell sh (row_offset + 1) col_num v) col_num (row_offset + 1) rest

/-- `write_excel_column(col_num, col_data, row_offset, sheet_name)`. -/
def write_excel_column {α : Type} (col_num : Nat) (col_data : List (Option α))
    (row_offset : Nat) (sheet_name : Option String) (s : ExcelLibrary α) :
    Except ExcelError (ExcelLibrary α) :=
  match currentIdChecked s with
  | .error e => .error e
  | .ok id =>
    match assocLookup s.cache id with
    | none => .error (.keyError id)
    | some wb =>
      match wb.getSheetByName sheet_name with
      | .error e => .error e
      | .ok (sname, sh) =>
        if col_num = 0 && !col_data.isEmpty then
          .error (.valueError ("Row or column values must be at least 1"))
        else
          .ok ⟨updateAssoc s.cache id
                 ⟨updateAssoc wb.sheets sname (writeColCells sh col_num row_offset col_data), wb.active⟩,
               s.current_id⟩

/-- One keyword invocation of the library, with the workbooks that `open`
variants would load supplied as data.  `make_list_from_excel_sheet` takes a
sheet object as argument and never touches the session, so it is omitted. -/
inductive Op (α : Type) where
  | create (doc_id : String)
  | openDoc (filename : String) (wb : Workbook α) (doc_id : String)
  | openStream (wb : Workbook α) (doc_id : String)
  | switch (doc_id : String)
  | closeCurrent
  | closeAll
  | save (filename : String)
  | listSheetNames
  | getSheetOp (sheet_name : Option String)
  | readCell (r c : Nat) (sheet_name : Option String)
  | readRow (r co mx : Nat) (sheet_name : Option String)
  | readCol (c ro mx : Nat) (sheet_name : Option String)
  | writeCell (r c : Nat) (v : Option α) (sheet_name : Option String)
  | writeRow (r : Nat) (data : List (Option α)) (co : Nat) (sheet_name : Option String)
  | writeRows (data : List (List (Option α))) (ro co : Nat) (sheet_name : Option String)
  | writeCol (c : Nat) (data : List (Option α)) (ro : Nat) (sheet_name : Option String)

/-- The session state after one invocation: readers leave the session
untouched, and an operation that raises leaves it unchanged (every raise in
the source happens before any session mutation). -/
def applyOp {α : Type} (op : Op α) (s : ExcelLibrary α) : ExcelLibrary α :=
  match op with
  | .create id =>
    match create_excel_document id s with
    | .ok (_, s') => s'
    | .error _ => s
  | .openDoc fn wb id =>
    match open_excel_document fn wb id s with
    | .ok (_, s') => s'
    | .error _ => s
  | .openStream wb id =>
    match open_excel_document_from_stream wb id s with
    | .ok (_, s') => s'
    | .error _ => s
  | .switch id =>
    match switch_current_excel_document id s with
    | .ok (_, s') => s'
    | .error _ => s
  | .closeCurrent =>
    match close_current_excel_document s with
    | .ok (_, s') => s'
    | .error _ => s
  | .closeAll => close_all_excel_documents s
  | .save _ => s
  | .listSheetNames => s
  | .getSheetOp _ => s
  | .readCell _ _ _ => s
  | .readRow _ _ _ _ => s
  | .readCol _ _ _ _ => s
  | .writeCell r c v n =>
    match write_excel_cell r c v n s with
    | .ok s' => s'
    | .error _ => s
  | .writeRow r d co n =>
    match write_excel_row r d co n s with
    | .ok s' => s'
    | .error _ => s
  | .writeRows d ro co n =>
    match write_excel_rows d ro co n s with
    | .ok s' => s'
    | .error _ => s
  | .writeCol c d ro n =>
    match write_excel_column c d ro n s with
    | .ok s' => s'
    | .error _ => s

/-- The session reached from `__init__` by a sequence of invocations. -/
def runOps {α : Type} (ops : List (Op α)) (s : ExcelLibrary α) : ExcelLibrary α :=
  ops.foldl (fun st op => applyOp op st) s

/-- The specification's session invariant: the current identifier is absent
or a key present in the registry. -/
def sessionInv {α : Type} (s : ExcelLibrary α) : Prop :=
  ∀ id, s.current_id = some id → (assocLookup s.cache id).isSome = true

/-- A Python value passed as a document identifier by the hosting keyword
layer: a string, or a non-string scalar (represented by an integer). -/
inductive PyId where
  | ofString (s : String)
  | ofInt (n : Int)
deriving DecidableEq, Repr

/-- Python `str(x)`. -/
def PyId.toPyString : PyId → String
  | .ofString s => s
  | .ofInt n => toString n

/-- Python equality between an identifier value and a dict key (all cache
keys are strings once registered): an `int` never equals a `str`. -/
def PyId.pyEqKey : PyId → String → Bool
  | .ofString s, k => s = k
  | .ofInt _, _ => false

/-- `create_excel_document` as invoked with an arbitrary Python value:
the source first coerces with `doc_id = str(doc_id)`. -/
def create_excel_document_any {α : Type} (doc_id : PyId) (s : ExcelLibrary α) :
    Except ExcelError (String × ExcelLibrary α) :=
  create_excel_document doc_id.toPyString s

/-- `open_excel_document` as invoked with arbitrary Python values: the
source coerces both `filename` and `doc_id` with `str`. -/
def open_excel_document_any {α : Type} (filename : PyId) (wb : Workbook α)
    (doc_id : PyId) (s : ExcelLibrary α) :
    Except ExcelError (String × ExcelLibrary α) :=
  open_excel_document filename.toPyString wb doc_id.toPyString s

/-- `switch_current_excel_document` as invoked with an arbitrary Python
value: no `str` coercion; `doc_id not in self._cache` compares the raw
value against the string keys with Python equality, and on success the raw
value becomes `self._current_id`.  Success forces the value to equal a
string key, so storing its string form is faithful. -/
def switch_current_excel_document_any {α : Type} (doc_id : PyId)
    (s : ExcelLibrary α) : Except ExcelError (Option String × ExcelLibrary α) :=
  if (s.cache.find? fun p => doc_id.pyEqKey p.1).isSome then
    .ok (s.current_id, ⟨s.cache, some doc_id.toPyString⟩)
  else
    .error (.noSuchId ("Document with such id " ++ doc_id.toPyString ++ " is not opened yet."))

/-- The session after `Create Excel Document doc_id=a`. -/
def oneDocState : ExcelLibrary Nat :=
  ⟨[("a", Workbook.new)], some ("a")⟩

/-- The session after creating documents `a` then `b` (current is `b`). -/
def twoDocState : ExcelLibrary Nat :=
  ⟨[("a", Workbook.new), ("b", Workbook.new)], some ("b")⟩

/-- A session holding the single document `solo`. -/
def soloDocState : ExcelLibrary Nat :=
  ⟨[("solo", Workbook.new)], some ("solo")⟩

/-- The session after `create_excel_document("")`: the empty string is
registered and current. -/
def emptyIdState : ExcelLibrary Nat :=
  ⟨[("", Workbook.new)], some ("")⟩

/-- The session after `create_excel_document(7)`: the key is `str(7)`. -/
def intIdState : ExcelLibrary Nat :=
  ⟨[("7", Workbook.new)], some ("7")⟩

/-- `oneDocState` after `write_excel_cell(2, 3, 7)` on the default sheet. -/
def writtenCellState : ExcelLibrary Nat :=
  ⟨[("a", ⟨[("Sheet", setCell ⟨fun _ => none⟩ 2 3 (some 7))], "Sheet"⟩)], some ("a")⟩

/-- `oneDocState` after `write_excel_row(1, [10, 20, 30])` on the default sheet. -/
def writtenRowState : ExcelLibrary Nat :=
  ⟨[("a", ⟨[("Sheet",
      setCell (setCell (setCell ⟨fun _ => none⟩ 1 1 (some 10)) 1 2 (some 20)) 1 3 (some 30))],
    "Sheet"⟩)], some ("a")⟩

theorem assocLookup_append_fresh {β : Type} (l : List (String × β)) (k : String) (v : β)
    (h : assocLookup l k = none) : assocLookup (l ++ [(k, v)]) k = some v := by
  induction l with
  | nil => simp [assocLookup]
  | cons p rest ih =>
    rcases p with ⟨k0, v0⟩
    by_cases hk : k0 = k
    · simp [assocLookup, hk] at h
    · simp only [assocLookup, List.cons_append, if_neg hk] at h ⊢
      exact ih h

theorem assocLookup_updateAssoc_self {β : Type} (l : List (String × β)) (k : String) (v w : β)
    (h : assocLookup l k = some w) : assocLookup (updateAssoc l k v) k = some v := by
  induction l with
  | nil => simp [assocLookup] at h
  | cons p rest ih =>
    rcases p with ⟨k0, v0⟩
    by_cases hk : k0 = k
    · simp [assocLookup, updateAssoc, hk]
    · simp only [assocLookup, updateAssoc, if_neg hk] at h ⊢
      exact ih h

theorem isSome_assocLookup_updateAssoc {β : Type} (l : List (String × β)) (k k' : String)
    (v : β) : (assocLookup (updateAssoc l k v) k').isSome = (assocLookup l k').isSome := by
  induction l with
  | nil => rfl
  | cons p rest ih =>
    rcases p with ⟨k0, v0⟩
    simp only [updateAssoc]
    by_cases hk : k0 = k
    · subst hk
      simp only [if_pos rfl, assocLookup]
      by_cases hk' : k0 = k'
      · simp [hk']
      · simp [hk']
    · simp only [if_neg hk, assocLookup]
      by_cases hk' : k0 = k'
      · simp [hk']
      · simp [hk', ih]

theorem isEmpty_updateAssoc {β : Type} (l : List (String × β)) (k : String) (v : β) :
    (updateAssoc l k v).isEmpty = l.isEmpty := by
  cases l with
  | nil => rfl
  | cons p rest =>
    rcases p with ⟨k0, v0⟩
    by_cases hk : k0 = k <;> simp [updateAssoc, hk]

theorem length_eraseAssoc {β : Type} (l : List (String × β)) (k : String)
    (h : (assocLookup l k).isSome = true) : (eraseAssoc l k).length + 1 = l.length := by
  induction l with
  | nil => simp [assocLookup] at h
  | cons p rest ih =>
    rcases p with ⟨k0, v0⟩
    by_cases hk : k0 = k
    · simp [eraseAssoc, hk]
    · simp only [assocLookup, if_neg hk] at h
      have := ih h
      simp only [eraseAssoc, if_neg hk, List.length_cons]
      omega

theorem currentIdChecked_ok_inv {α : Type} {s : ExcelLibrary α} {id : String}
    (h : currentIdChecked s = .ok id) :
    s.current_id = some id ∧ (s.cache.isEmpty || !(pyTruthy s.current_id)) = false := by
  unfold currentIdChecked at h
  split at h
  · simp at h
  · rename_i hcond
    split at h
    · rename_i id0 heq
      injection h with h
      subst h
      exact ⟨heq, by simpa using hcond⟩
    · simp at h

theorem currentIdChecked_updateAssoc {α : Type} {s : ExcelLibrary α} {id : String}
    (h : currentIdChecked s = .ok id) (wb' : Workbook α) :
    currentIdChecked (⟨updateAssoc s.cache id wb', s.current_id⟩ : ExcelLibrary α) = .ok id := by
  obtain ⟨hcur, hcond⟩ := currentIdChecked_ok_inv h
  rw [Bool.or_eq_false_iff] at hcond
  have ht : pyTruthy (some id) = true := by
    have h2 := hcond.2
    rw [hcur] at h2
    simpa using h2
  unfold currentIdChecked
  simp [isEmpty_updateAssoc, hcur, hcond.1, ht]

theorem getSheetByName_ok_inv {α : Type} {wb : Workbook α} {n : Option String}
    {sname : String} {sh : Sheet α} (h : wb.getSheetByName n = .ok (sname, sh)) :
    assocLookup wb.sheets sname = some sh := by
  cases n with
  | none =>
    simp only [Workbook.getSheetByName] at h
    split at h
    · rename_i sh0 heq
      injection h with h
      injection h with h1 h2
      subst h1
      subst h2
      exact heq
    · simp at h
  | some nm =>
    simp only [Workbook.getSheetByName] at h
    split at h
    · rename_i sh0 heq
      injection h with h
      injection h with h1 h2
      subst h1
      subst h2
      exact heq
    · simp at h

theorem getSheetByName_update {α : Type} {wb : Workbook α} {n : Option String}
    {sname : String} {sh : Sheet α} (h : wb.getSheetByName n = .ok (sname, sh))
    (sh' : Sheet α) :
    Workbook.getSheetByName ⟨updateAssoc wb.sheets sname sh', wb.active⟩ n =
      .ok (sname, sh') := by
  have hl := getSheetByName_ok_inv h
  have hupd := assocLookup_updateAssoc_self wb.sheets sname sh' sh hl
  cases n with
  | none =>
    have hact : sname = wb.active := by
      simp only [Workbook.getSheetByName] at h
      split at h
      · injection h with h
        injection h with h1 h2
        exact h1.symm
      · simp at h
    subst hact
    simp [Workbook.getSheetByName, hupd]
  | some nm =>
    have hact : sname = nm := by
      simp only [Workbook.getSheetByName] at h
      split at h
      · injection h with h
        injection h with h1 h2
        exact h1.symm
      · simp at h
    subst hact
    simp [Workbook.getSheetByName, hupd]

theorem get_sheet_after_write {α : Type} {s : ExcelLibrary α} {id : String}
    {wb : Workbook α} {n : Option String} {sname : String} {sh : Sheet α}
    (hch : currentIdChecked s = .ok id) (hlk : assocLookup s.cache id = some wb)
    (hsh : wb.getSheetByName n = .ok (sname, sh)) (sh' : Sheet α) :
    get_sheet n (⟨updateAssoc s.cache id ⟨updateAssoc wb.sheets sname sh', wb.active⟩,
      s.current_id⟩ : ExcelLibrary α) = .ok sh' := by
  have hch' := currentIdChecked_updateAssoc hch
    (⟨updateAssoc wb.sheets sname sh', wb.active⟩ : Workbook α)
  have hlk' := assocLookup_updateAssoc_self s.cache id
    (⟨updateAssoc wb.sheets sname sh', wb.active⟩ : Workbook α) wb hlk
  have hsh' := getSheetByName_update hsh sh'
  simp [get_sheet, get_current_workbook, hch', hlk', hsh']

theorem get_current_workbook_error {α : Type} {s : ExcelLibrary α} {e : ExcelError}
    (h : currentIdChecked s = .error e) : get_current_workbook s = .error e := by
  simp [get_current_workbook, h]

theorem currentIdChecked_falsy {α : Type} (s : ExcelLibrary α)
    (h : pyTruthy s.current_id = false) : currentIdChecked s = .error noOpenErr := by
  simp [currentIdChecked, h]

theorem docScopedOpsError {α : Type} (s : ExcelLibrary α)
    (h : pyTruthy s.current_id = false) :
    (∀ fn, save_excel_document fn s = .error noOpenErr) ∧
    get_list_sheet_names s = .error noOpenErr ∧
    (∀ n, get_sheet n s = .error noOpenErr) ∧
    (∀ r c n, read_excel_cell r c n (s : ExcelLibrary α) = .error noOpenErr) ∧
    (∀ r co mx n, read_excel_row r co mx n s = .error noOpenErr) ∧
    (∀ c ro mx n, read_excel_column c ro mx n s = .error noOpenErr) ∧
    (∀ r c (v : Option α) n, write_excel_cell r c v n s = .error noOpenErr) ∧
    (∀ r (d : List (Option α)) co n, write_excel_row r d co n s = .error noOpenErr) ∧
    (∀ c (d : List (Option α)) ro n, write_excel_column c d ro n s = .error noOpenErr) ∧
    (∀ (d : List (List (Option α))) ro co n, d ≠ [] →
       write_excel_rows d ro co n s = .error noOpenErr) := by
  have hch := currentIdChecked_falsy s h
  have hgw : get_current_workbook s = .error noOpenErr := get_current_workbook_error hch
  have hgs : ∀ n, get_sheet n s = .error noOpenErr := fun n => by simp [get_sheet, hgw]
  refine ⟨fun fn => by simp [save_excel_document, hgw],
    by simp [get_list_sheet_names, hgw], hgs, ?_, ?_, ?_, ?_, ?_, ?_, ?_⟩
  · intro r c n
    simp [read_excel_cell, hgs n]
  · intro r co mx n
    simp [read_excel_row, hgs n]
  · intro c ro mx n
    simp [read_excel_column, hgs n]
  · intro r c v n
    simp [write_excel_cell, hch]
  · intro r d co n
    simp [write_excel_row, hch]
  · intro c d ro n
    simp [write_excel_column, hch]
  · intro d ro co n hd
    cases d with
    | nil => exact absurd rfl hd
    | cons rd rest =>
      simp [write_excel_rows, writeRowsLoop, write_excel_row, hch]

theorem sessionInv_init (α : Type) : sessionInv (initLibrary : ExcelLibrary α) := by
  intro id h
  simp [initLibrary] at h

theorem sessionInv_register {α : Type} {l : List (String × Workbook α)} {k : String}
    {wb : Workbook α} (h : assocLookup l k = none) :
    sessionInv (⟨l ++ [(k, wb)], some k⟩ : ExcelLibrary α) := by
  intro id hid
  injection hid with hid
  subst hid
  simp [assocLookup_append_fresh l k wb h]

theorem sessionInv_writeResult {α : Type} {s : ExcelLibrary α} (id : String)
    (wb' : Workbook α) (h : sessionInv s) :
    sessionInv (⟨updateAssoc s.cache id wb', s.current_id⟩ : ExcelLibrary α) := by
  intro cid hcid
  rw [show (⟨updateAssoc s.cache id wb', s.current_id⟩ : ExcelLibrary α).cache =
    updateAssoc s.cache id wb' from rfl, isSome_assocLookup_updateAssoc]
  exact h cid hcid

theorem write_excel_cell_ok_shape {α : Type} {r c : Nat} {v : Option α} {n : Option String}
    {s s' : ExcelLibrary α} (h : write_excel_cell r c v n s = .ok s') :
    ∃ id wb', s' = (⟨updateAssoc s.cache id wb', s.current_id⟩ : ExcelLibrary α) := by
  unfold write_excel_cell at h
  split at h
  · simp at h
  · rename_i id hch
    split at h
    · simp at h
    · rename_i wb hlk
      split at h
      · simp at h
      · rename_i sname sh hsh
        split at h
        · simp at h
        · injection h with h
          exact ⟨id, _, h.symm⟩

theorem write_excel_row_ok_shape {α : Type} {r : Nat} {d : List (Option α)} {co : Nat}
    {n : Option String} {s s' : ExcelLibrary α} (h : write_excel_row r d co n s = .ok s') :
    ∃ id wb', s' = (⟨updateAssoc s.cache id wb', s.current_id⟩ : ExcelLibrary α) := by
  unfold write_excel_row at h
  split at h
  · simp at h
  · rename_i id hch
    split at h
    · simp at h
    · rename_i wb hlk
      split at h
      · simp at h
      · rename_i sname sh hsh
        split at h
        · simp at h
        · injection h with h
          exact ⟨id, _, h.symm⟩

theorem write_excel_column_ok_shape {α : Type} {c : Nat} {d : List (Option α)} {ro : Nat}
    {n : Option String} {s s' : ExcelLibrary α} (h : write_excel_column c d ro n s = .ok s') :
    ∃ id wb', s' = (⟨updateAssoc s.cache id wb', s.current_id⟩ : ExcelLibrary α) := by
  unfold write_excel_column at h
  split at h
  · simp at h
  · rename_i id hch
    split at h
    · simp at h
    · rename_i wb hlk
      split at h
      · simp at h
      · rename_i sname sh hsh
        split at h
        · simp at h
        · injection h with h
          exact ⟨id, _, h.symm⟩

theorem sessionInv_write_excel_row {α : Type} {r : Nat} {d : List (Option α)} {co : Nat}
    {n : Option String} {s s' : ExcelLibrary α} (hw : write_excel_row r d co n s = .ok s')
    (h : sessionInv s) : sessionInv s' := by
  obtain ⟨id, wb', rfl⟩ := write_excel_row_ok_shape hw
  exact sessionInv_writeResult id wb' h

theorem sessionInv_writeRowsLoop {α : Type} {ro co : Nat} {n : Option String}
    (d : List (List (Option α))) (i : Nat) (s s' : ExcelLibrary α)
    (hrun : writeRowsLoop ro co n d i s = .ok s') (h : sessionInv s) : sessionInv s' := by
  induction d generalizing i s with
  | nil =>
    simp only [writeRowsLoop] at hrun
    injection hrun with hrun
    subst hrun
    exact h
  | cons rd rest ih =>
    simp only [writeRowsLoop] at hrun
    split at hrun
    · simp at hrun
    · rename_i s1 hw
      exact ih _ _ hrun (sessionInv_write_excel_row hw h)

theorem sessionInv_switch {α : Type} {doc_id : String} {s s' : ExcelLibrary α}
    {ret : Option String} (h : switch_current_excel_document doc_id s = .ok (ret, s')) :
    sessionInv s' := by
  unfold switch_current_excel_document at h
  split at h
  · rename_i hmem
    injection h with h
    injection h with h1 h2
    subst h2
    intro id hid
    injection hid with hid
    subst hid
    exact hmem
  · simp at h

theorem sessionInv_close_current {α : Type} {s s' : ExcelLibrary α} {ret : Option String}
    (h : close_current_excel_document s = .ok (ret, s')) : sessionInv s' := by
  unfold close_current_excel_document at h
  split at h
  · rename_i id heq
    split at h
    · split at h
      · injection h with h
        injection h with h1 h2
        subst h2
        intro cid hcid
        simp at hcid
      · rename_i k w rest herase
        injection h with h
        injection h with h1 h2
        subst h2
        intro cid hcid
        injection hcid with hcid
        subst hcid
        simp [assocLookup]
    · simp at h
  · rename_i heq
    split at h
    · rename_i hnil
      injection h with h
      injection h with h1 h2
      subst h2
      intro cid hcid
      rw [heq] at hcid
      simp at hcid
    · rename_i k w rest hcons
      injection h with h
      injection h with h1 h2
      subst h2
      intro cid hcid
      injection hcid with hcid
      subst hcid
      simp [assocLookup]

theorem eq_none_of_not_isSome {β : Type} {o : Option β} (h : ¬ o.isSome = true) :
    o = none := by
  cases o with
  | none => rfl
  | some v => simp at h

theorem sessionInv_applyOp {α : Type} (op : Op α) (s : ExcelLibrary α)
    (h : sessionInv s) : sessionInv (applyOp op s) := by
  cases op with
  | create id =>
    simp only [applyOp]
    split
    · rename_i ret s' hok
      unfold create_excel_document at hok
      split at hok
      · simp at hok
      · rename_i hdup
        injection hok with hok
        injection hok with h1 h2
        subst h2
        exact sessionInv_register (eq_none_of_not_isSome hdup)
    · exact h
  | openDoc fn wb id =>
    simp only [applyOp]
    split
    · rename_i ret s' hok
      unfold open_excel_document at hok
      split at hok
      · simp at hok
      · rename_i hdup
        injection hok with hok
        injection hok with h1 h2
        subst h2
        exact sessionInv_register (eq_none_of_not_isSome hdup)
    · exact h
  | openStream wb id =>
    simp only [applyOp]
    split
    · rename_i ret s' hok
      unfold open_excel_document_from_stream at hok
      split at hok
      · simp at hok
      · rename_i hdup
        injection hok with hok
        injection hok with h1 h2
        subst h2
        exact sessionInv_register (eq_none_of_not_isSome hdup)
    · exact h
  | switch id =>
    simp only [applyOp]
    split
    · rename_i ret s' hok
      exact sessionInv_switch hok
    · exact h
  | closeCurrent =>
    simp only [applyOp]
    split
    · rename_i ret s' hok
      exact sessionInv_close_current hok
    · exact h
  | closeAll =>
    intro id hid
    simp [applyOp, close_all_excel_documents] at hid
  | save fn => exact h
  | listSheetNames => exact h
  | getSheetOp n => exact h
  | readCell r c n => exact h
  | readRow r co mx n => exact h
  | readCol c ro mx n => exact h
  | writeCell r c v n =>
    simp only [applyOp]
    split
    · rename_i s' hok
      obtain ⟨id, wb', rfl⟩ := write_excel_cell_ok_shape hok
      exact sessionInv_writeResult id wb' h
    · exact h
  | writeRow r d co n =>
    simp only [applyOp]
    split
    · rename_i s' hok
      exact sessionInv_write_excel_row hok h
    · exact h
  | writeRows d ro co n =>
    simp only [applyOp]
    split
    · rename_i s' hok
      exact sessionInv_writeRowsLoop d 0 s s' hok h
    · exact h
  | writeCol c d ro n =>
    simp only [applyOp]
    split
    · rename_i s' hok
      obtain ⟨id, wb', rfl⟩ := write_excel_column_ok_shape hok
      exact sessionInv_writeResult id wb' h
    · exact h

theorem sessionInv_runOps {α : Type} (ops : List (Op α)) (s : ExcelLibrary α)
    (h : sessionInv s) : sessionInv (runOps ops s) := by
  induction ops generalizing s with
  | nil => exact h
  | cons op rest ih => exact ih (applyOp op s) (sessionInv_applyOp op s h)

theorem setCell_same {α : Type} (sh : Sheet α) (r c : Nat) (v : Option α) :
    (setCell sh r c v).cells (r, c) = v := by
  simp [setCell]

theorem writeRowCells_stable {α : Type} (r r' c' : Nat) (vs : List (Option α)) :
    ∀ (sh : Sheet α) (co : Nat), c' ≤ co ∨ r' ≠ r →
      (writeRowCells sh r co vs).cells (r', c') = sh.cells (r', c') := by
  induction vs with
  | nil =>
    intro sh co h
    rfl
  | cons v rest ih =>
    intro sh co h
    have hstep : c' ≤ co + 1 ∨ r' ≠ r := by
      rcases h with h1 | h2
      · exact Or.inl (Nat.le_succ_of_le h1)
      · exact Or.inr h2
    have hne : ((r', c') : Nat × Nat) ≠ (r, co + 1) := by
      intro heq
      injection heq with hr hc
      rcases h with h1 | h2
      · omega
      · exact h2 hr
    simp only [writeRowCells]
    rw [ih (setCell sh r (co + 1) v) (co + 1) hstep]
    simp [setCell, hne]

theorem readRowCells_succ {α : Type} (sh : Sheet α) (r co n : Nat) :
    readRowCells sh r co (n + 1) =
      sh.cells (r, co + 1) :: readRowCells sh r (co + 1) n := by
  simp only [readRowCells, List.range_succ_eq_map, List.map_cons, List.map_map,
    Nat.add_zero]
  congr 1
  apply List.map_congr_left
  intro i _
  have harith : co + 1 + (i + 1) = co + 1 + 1 + i := by omega
  simp [Function.comp, Nat.succ_eq_add_one, harith]

theorem readRowCells_writeRowCells {α : Type} (r : Nat) (vs : List (Option α)) :
    ∀ (sh : Sheet α) (co : Nat),
      readRowCells (writeRowCells sh r co vs) r co vs.length = vs := by
  induction vs with
  | nil =>
    intro sh co
    rfl
  | cons v rest ih =>
    intro sh co
    simp only [writeRowCells, List.length_cons]
    rw [readRowCells_succ,
      writeRowCells_stable r r (co + 1) rest (setCell sh r (co + 1) v) (co + 1)
        (Or.inl (le_refl _)),
      setCell_same, ih (setCell sh r (co + 1) v) (co + 1)]

/-- C2: in every session reachable from the initial state by any sequence of
keyword invocations (create, open, open-from-stream, switch, close-current,
close-all, and all document-scoped accessors), the current identifier is
either absent or a key present in the registry; it is never dangling. -/
theorem claim_current_never_dangling (α : Type) (ops : List (Op α)) :
    sessionInv (runOps ops initLibrary) :=
  sessionInv_runOps ops initLibrary (sessionInv_init α)

/-- C3: `create_excel_document` with a fresh identifier registers a new
workbook under it, sets it current and returns it; with a registered
identifier it raises SuchIdIsExistException and leaves the session
unchanged. -/
theorem claim_create_excel_document (α : Type) (doc_id : String)
    (s : ExcelLibrary α) :
    (assocLookup s.cache doc_id = none →
      create_excel_document doc_id s =
        .ok (doc_id, ⟨s.cache ++ [(doc_id, Workbook.new)], some doc_id⟩)) ∧
    ((assocLookup s.cache doc_id).isSome = true →
      create_excel_document doc_id s =
        .error (.suchIdIsExist ("Document with such id " ++ doc_id ++ " is created.")) ∧
      applyOp (.create doc_id) s = s) := by
  constructor
  · intro h
    simp [create_excel_document, h]
  · intro h
    constructor
    · simp [create_excel_document, h]
    · simp [applyOp, create_excel_document, h]

/-- Witness for C3 at concrete sessions: creation succeeds on a fresh
identifier and fails on a duplicate. -/
theorem claim_create_excel_document_witness :
    create_excel_document ("fresh") (initLibrary : ExcelLibrary Nat) =
      .ok ("fresh", ⟨[("fresh", Workbook.new)], some ("fresh")⟩) ∧
    create_excel_document ("a") oneDocState =
      .error (.suchIdIsExist ("Document with such id a is created.")) :=
  ⟨(claim_create_excel_document Nat ("fresh") initLibrary).1 rfl,
   ((claim_create_excel_document Nat ("a") oneDocState).2 rfl).1⟩

/-- C4: `switch_current_excel_document` with a registered identifier makes it
current, returns the previous current identifier and leaves the registry
unchanged; with an unknown identifier it raises NoSuchIdException and leaves
the session unchanged. -/
theorem claim_switch_current_excel_document (α : Type) (doc_id : String)
    (s : ExcelLibrary α) :
    ((assocLookup s.cache doc_id).isSome = true →
      switch_current_excel_document doc_id s =
        .ok (s.current_id, ⟨s.cache, some doc_id⟩)) ∧
    (assocLookup s.cache doc_id = none →
      switch_current_excel_document doc_id s =
        .error (.noSuchId ("Document with such id " ++ doc_id ++ " is not opened yet.")) ∧
      applyOp (.switch doc_id) s = s) := by
  constructor
  · intro h
    simp [switch_current_excel_document, h]
  · intro h
    constructor
    · simp [switch_current_excel_document, h]
    · simp [applyOp, switch_current_excel_document, h]

/-- Witness for C4 at a concrete two-document session. -/
theorem claim_switch_current_excel_document_witness :
    switch_current_excel_document ("a") twoDocState =
      .ok (some ("b"), ⟨twoDocState.cache, some ("a")⟩) ∧
    switch_current_excel_document ("zz") twoDocState =
      .error (.noSuchId ("Document with such id zz is not opened yet.")) :=
  ⟨(claim_switch_current_excel_document Nat ("a") twoDocState).1 rfl,
   ((claim_switch_current_excel_document Nat ("zz") twoDocState).2 rfl).1⟩

/-- C1 (code divergence, evaluated at the failing inputs):
`close_current_excel_document` returns `self._current_id` after the
reassignment, not the identifier of the removed document.  Closing the only
document `a` returns `none` although `a` was just removed, and closing `b`
in a two-document session returns the surviving identifier `a`. -/
theorem close_current_returns_reassigned_id :
    oneDocState.current_id = some ("a") ∧
    close_current_excel_document oneDocState = .ok (none, ⟨[], none⟩) ∧
    twoDocState.current_id = some ("b") ∧
    close_current_excel_document twoDocState =
      .ok (some ("a"), ⟨[("a", Workbook.new)], some ("a")⟩) :=
  ⟨rfl, rfl, rfl, rfl⟩

/-- C5: `close_current_excel_document` on a session holding exactly one
document leaves the registry empty and `current` absent; on a session
holding more than one document it removes exactly one entry and sets
`current` to a key of the remaining registry. -/
theorem claim_close_current_excel_document (α : Type) (s : ExcelLibrary α)
    (id : String) (hcur : s.current_id = some id)
    (hmem : (assocLookup s.cache id).isSome = true) :
    (s.cache.length = 1 →
      close_current_excel_document s = .ok (none, ⟨[], none⟩)) ∧
    (1 < s.cache.length →
      ∃ k w rest,
        close_current_excel_document s = .ok (some k, ⟨(k, w) :: rest, some k⟩) ∧
        ((k, w) :: rest).length = s.cache.length - 1 ∧
        assocLookup ((k, w) :: rest) k = some w) := by
  have hlen := length_eraseAssoc s.cache id hmem
  constructor
  · intro h1
    have hz : (eraseAssoc s.cache id).length = 0 := by omega
    have hnil : eraseAssoc s.cache id = [] := List.length_eq_zero.mp hz
    unfold close_current_excel_document
    rw [hcur]
    simp [hmem, hnil]
  · intro h1
    have hpos : 0 < (eraseAssoc s.cache id).length := by omega
    obtain ⟨p, rest, hcons⟩ : ∃ p rest, eraseAssoc s.cache id = p :: rest := by
      cases herase : eraseAssoc s.cache id with
      | nil =>
        rw [herase] at hpos
        simp at hpos
      | cons p rest => exact ⟨p, rest, rfl⟩
    rcases p with ⟨k, w⟩
    refine ⟨k, w, rest, ?_, ?_, ?_⟩
    · unfold close_current_excel_document
      rw [hcur]
      simp [hmem, hcons]
    · rw [← hcons]
      omega
    · simp [assocLookup]

/-- Witness for C5 at a concrete one-document session. -/
theorem claim_close_current_excel_document_witness :
    close_current_excel_document soloDocState = .ok (none, ⟨[], none⟩) :=
  (claim_close_current_excel_document Nat soloDocState ("solo") rfl rfl).1 rfl

/-- C6 (counterexample): with no document open, `write_excel_rows` invoked
with an empty list of rows performs no per-row writes and raises nothing,
so not every document-scoped operation raises when `current` is absent. -/
theorem write_excel_rows_empty_no_error :
    (initLibrary : ExcelLibrary Nat).current_id = none ∧
    write_excel_rows ([] : List (List (Option Nat))) 0 0 none initLibrary =
      .ok initLibrary :=
  ⟨rfl, rfl⟩

/-- C6 (amended): whenever `current` is absent (in particular on the empty
registry), save, sheet-name listing, sheet resolution and all cell/row/column
readers and writers raise NoOpenedDocumentsException — except
`write_excel_rows` with an empty `rows_data`, which performs no per-row
writes and returns without raising; it raises for non-empty `rows_data`. -/
theorem claim_doc_scoped_ops_raise_when_no_current (α : Type) (s : ExcelLibrary α)
    (h : s.current_id = none) :
    (∀ fn, save_excel_document fn s = .error noOpenErr) ∧
    get_list_sheet_names s = .error noOpenErr ∧
    (∀ n, get_sheet n s = .error noOpenErr) ∧
    (∀ r c n, read_excel_cell r c n s = .error noOpenErr) ∧
    (∀ r co mx n, read_excel_row r co mx n s = .error noOpenErr) ∧
    (∀ c ro mx n, read_excel_column c ro mx n s = .error noOpenErr) ∧
    (∀ r c (v : Option α) n, write_excel_cell r c v n s = .error noOpenErr) ∧
    (∀ r (d : List (Option α)) co n, write_excel_row r d co n s = .error noOpenErr) ∧
    (∀ c (d : List (Option α)) ro n, write_excel_column c d ro n s = .error noOpenErr) ∧
    (∀ (d : List (List (Option α))) ro co n, d ≠ [] →
      write_excel_rows d ro co n s = .error noOpenErr) :=
  docScopedOpsError s (by rw [h]; rfl)

/-- Witness for C6 at the initial session. -/
theorem claim_doc_scoped_ops_raise_witness :
    save_excel_document ("out.xlsx") (initLibrary : ExcelLibrary Nat) =
      .error noOpenErr :=
  (claim_doc_scoped_ops_raise_when_no_current Nat initLibrary rfl).1 ("out.xlsx")

/-- C7: writing a cell and then reading the same cell on the same sheet of
the open document returns the written value (including the absent value). -/
theorem claim_write_read_cell_roundtrip (α : Type) (r c : Nat) (v : Option α)
    (sheet_name : Option String) (s s' : ExcelLibrary α)
    (h : write_excel_cell r c v sheet_name s = .ok s') :
    read_excel_cell r c sheet_name s' = .ok v := by
  unfold write_excel_cell at h
  split at h
  · simp at h
  · rename_i id hch
    split at h
    · simp at h
    · rename_i wb hlk
      split at h
      · simp at h
      · rename_i sname sh hsh
        split at h
        · simp at h
        · rename_i hvalid
          injection h with h
          subst h
          have hget := get_sheet_after_write hch hlk hsh (setCell sh r c v)
          have hval' : (r = 0 || c = 0) = false := by
            simpa using hvalid
          unfold read_excel_cell
          simp only [hget]
          simp [hval', setCell_same]

/-- Witness for C7: the written value 7 is read back at (2, 3). -/
theorem claim_write_read_cell_roundtrip_witness :
    read_excel_cell 2 3 none writtenCellState = .ok (some 7) :=
  claim_write_read_cell_roundtrip Nat 2 3 (some 7) none oneDocState
    writtenCellState rfl

/-- C8: writing a row writes the values left-to-right starting at column
`col_offset + 1`, and reading the row back with `max_num` equal to the list
length returns exactly the written list. -/
theorem claim_write_read_row_roundtrip (α : Type) (r co : Nat)
    (row_data : List (Option α)) (sheet_name : Option String)
    (s s' : ExcelLibrary α)
    (h : write_excel_row r row_data co sheet_name s = .ok s') :
    read_excel_row r co row_data.length sheet_name s' = .ok row_data := by
  unfold write_excel_row at h
  split at h
  · simp at h
  · rename_i id hch
    split at h
    · simp at h
    · rename_i wb hlk
      split at h
      · simp at h
      · rename_i sname sh hsh
        split at h
        · simp at h
        · injection h with h
          subst h
          have hget := get_sheet_after_write hch hlk hsh
            (writeRowCells sh r co row_data)
          unfold read_excel_row
          simp only [hget]
          rw [readRowCells_writeRowCells r row_data sh co]

/-- Witness for C8: the written row [10, 20, 30] is read back from row 1. -/
theorem claim_write_read_row_roundtrip_witness :
    read_excel_row 1 0 3 none writtenRowState =
      .ok [some 10, some 20, some 30] :=
  claim_write_read_row_roundtrip Nat 1 0 [some 10, some 20, some 30] none
    oneDocState writtenRowState rfl

/-- C9 (counterexample): after creating a document under the empty-string
identifier, `write_excel_rows` with an empty list of rows raises nothing,
so not every subsequent document-scoped operation raises. -/
theorem empty_id_write_rows_no_error :
    create_excel_document ("") (initLibrary : ExcelLibrary Nat) =
      .ok ("", emptyIdState) ∧
    write_excel_rows ([] : List (List (Option Nat))) 0 0 none emptyIdState =
      .ok emptyIdState :=
  ⟨rfl, rfl⟩

/-- C9 (amended): creating with the empty-string identifier registers the
document in the cache and makes `""` current, yet every subsequent
document-scoped operation raises NoOpenedDocumentsException — except
`write_excel_rows` with an empty `rows_data`, which performs no per-row
writes — because the truthiness check of `_get_current_workbook` treats the
empty string as no current document. -/
theorem claim_empty_string_id_blocks_ops (α : Type) (s s' : ExcelLibrary α)
    (h : create_excel_document ("") s = .ok ("", s')) :
    s'.current_id = some ("") ∧
    assocLookup s'.cache ("") = some Workbook.new ∧
    (∀ fn, save_excel_document fn s' = .error noOpenErr) ∧
    get_list_sheet_names s' = .error noOpenErr ∧
    (∀ n, get_sheet n s' = .error noOpenErr) ∧
    (∀ r c n, read_excel_cell r c n s' = .error noOpenErr) ∧
    (∀ r co mx n, read_excel_row r co mx n s' = .error noOpenErr) ∧
    (∀ c ro mx n, read_excel_column c ro mx n s' = .error noOpenErr) ∧
    (∀ r c (v : Option α) n, write_excel_cell r c v n s' = .error noOpenErr) ∧
    (∀ r (d : List (Option α)) co n, write_excel_row r d co n s' = .error noOpenErr) ∧
    (∀ c (d : List (Option α)) ro n, write_excel_column c d ro n s' = .error noOpenErr) ∧
    (∀ (d : List (List (Option α))) ro co n, d ≠ [] →
      write_excel_rows d ro co n s' = .error noOpenErr) := by
  unfold create_excel_document at h
  split at h
  · simp at h
  · rename_i hdup
    injection h with h
    injection h with h1 h2
    subst h2
    have hfresh : assocLookup s.cache ("") = none := eq_none_of_not_isSome hdup
    have herr := docScopedOpsError
      (⟨s.cache ++ [("", Workbook.new)], some ("")⟩ : ExcelLibrary α) rfl
    exact ⟨rfl, assocLookup_append_fresh s.cache ("") Workbook.new hfresh,
      herr.1, herr.2.1, herr.2.2.1, herr.2.2.2.1, herr.2.2.2.2.1,
      herr.2.2.2.2.2.1, herr.2.2.2.2.2.2.1, herr.2.2.2.2.2.2.2.1,
      herr.2.2.2.2.2.2.2.2.1, herr.2.2.2.2.2.2.2.2.2⟩

/-- Witness for C9 at the session created from the empty-string identifier. -/
theorem claim_empty_string_id_blocks_ops_witness :
    emptyIdState.current_id = some ("") ∧
    get_list_sheet_names emptyIdState = .error noOpenErr :=
  ⟨(claim_empty_string_id_blocks_ops Nat initLibrary emptyIdState rfl).1,
   (claim_empty_string_id_blocks_ops Nat initLibrary emptyIdState rfl).2.2.2.1⟩

theorem find?_pyInt_isSome_false {β : Type} (l : List (String × β)) (n : Int) :
    (l.find? fun p => PyId.pyEqKey (.ofInt n) p.1).isSome = false := by
  induction l with
  | nil => rfl
  | cons p rest ih => simp [List.find?, PyId.pyEqKey, ih]

/-- C10: `create_excel_document` (and `open_excel_document`) coerce the
identifier with `str` before the duplicate check and registration, so after
creating with the non-string value `n` the key `str(n)` is registered and a
duplicate is detected for `str(n)`; `switch_current_excel_document` performs
no coercion, so switching with the original non-string value raises
NoSuchIdException even though `str(n)` is registered. -/
theorem claim_str_coercion_asymmetry (α : Type) (n : Int) (s s' : ExcelLibrary α)
    (ret : String) (h : create_excel_document_any (.ofInt n) s = .ok (ret, s')) :
    ret = toString n ∧
    assocLookup s'.cache (toString n) = some Workbook.new ∧
    create_excel_document_any (.ofString (toString n)) s' =
      .error (.suchIdIsExist ("Document with such id " ++ toString n ++ " is created.")) ∧
    (∀ fn wb, open_excel_document_any fn wb (.ofString (toString n)) s' =
      .error (.suchIdIsExist ("Document with such id " ++ toString n ++ " is opened."))) ∧
    switch_current_excel_document_any (.ofInt n) s' =
      .error (.noSuchId ("Document with such id " ++ toString n ++ " is not opened yet.")) := by
  simp only [create_excel_document_any, PyId.toPyString] at h
  unfold create_excel_document at h
  split at h
  · simp at h
  · rename_i hdup
    injection h with h
    injection h with h1 h2
    subst h2
    have hfresh : assocLookup s.cache (toString n) = none := eq_none_of_not_isSome hdup
    have hreg := assocLookup_append_fresh s.cache (toString n) Workbook.new hfresh
    refine ⟨h1.symm, hreg, ?_, ?_, ?_⟩
    · simp [create_excel_document_any, PyId.toPyString, create_excel_document, hreg]
    · intro fn wb
      simp [open_excel_document_any, PyId.toPyString, open_excel_document, hreg]
    · simp [switch_current_excel_document_any, PyId.toPyString, PyId.pyEqKey,
        find?_pyInt_isSome_false]

/-- Witness for C10 with the integer identifier 7. -/
theorem claim_str_coercion_asymmetry_witness :
    switch_current_excel_document_any (.ofInt 7) intIdState =
      .error (.noSuchId ("Document with such id 7 is not opened yet.")) ∧
    create_excel_document_any (.ofString ("7")) intIdState =
      .error (.suchIdIsExist ("Document with such id 7 is created.")) :=
  ⟨(claim_str_coercion_asymmetry Nat 7 initLibrary intIdState ("7") rfl).2.2.2.2,
   (claim_str_coercion_asymmetry Nat 7 initLibrary intIdState ("7") rfl).2.2.1⟩

end ExcelLib
